import Mathlib

/-!
# Verification of the GCRBot adaptive content-discovery core (`WebExtractor.py`)

This file is a shallow embedding, in Lean 4, of the algorithmic core of
`src/gcrbot/WebExtractor.py`: the semantic content scorer, the internal-link
scorer, the crawl controller (`extract_site_content`), the result formatter,
and the multi-strategy PDF extraction pipeline.

Modelling conventions:
* Python `str` values are Lean `String`s; Python `len`, slicing, `in`,
  `str.count`, `str.split`, `str.strip`, `str.lower`, `str.replace` are
  embedded as executable functions over the underlying `List Char`
  (Python `len` counts code points, exactly like `String.length` here).
  The Python whitespace class is modelled by its ASCII members, which are
  the only whitespace characters the relevant strings contain.
* Python non-negative `int` arithmetic is `Nat` arithmetic; Python `//` on
  non-negative operands is `Nat` division.
* Network I/O is modelled by a `World` function from URLs to optional page
  data; every `session.get` performed by the code appends the requested URL
  to an explicit fetch trace, so temporal claims about "how often is a URL
  requested" become claims about that trace.
-/

/-! ## Python string primitives -/

/-- The ASCII whitespace characters recognised by Python `str.strip()` /
`str.split()` (space, tab, newline, carriage return, vertical tab, form feed). -/
def pyIsSpace (c : Char) : Bool :=
  c = ' ' || c = '\t' || c = '\n' || c = '\x0d' || c = '\x0b' || c = '\x0c'

/-- Drop leading whitespace, as Python `str.lstrip()`. -/
def pyLStripL (l : List Char) : List Char := l.dropWhile pyIsSpace

/-- Python `str.strip()` on a character list. -/
def pyStripL (l : List Char) : List Char :=
  ((pyLStripL l).reverse.dropWhile pyIsSpace).reverse

/-- Python `str.strip()`. -/
def pyStrip (s : String) : String := ⟨pyStripL s.data⟩

/-- Python `str.lower()` (ASCII case mapping; the strings scored by the code
are compared after this mapping). -/
def pyLower (s : String) : String := ⟨s.data.map Char.toLower⟩

/-- Python slicing `s[:n]`. -/
def pyTake (s : String) (n : Nat) : String := ⟨s.data.take n⟩

/-- Python `needle in haystack` (substring containment) on character lists. -/
def listContainsSub (l pat : List Char) : Bool :=
  match pat, l with
  | [], _ => true
  | _ :: _, [] => false
  | _ :: _, _ :: rest => pat.isPrefixOf l || listContainsSub rest pat

/-- Python `pat in s` for strings. -/
def strContainsSub (s pat : String) : Bool := listContainsSub s.data pat.data

/-- Python `s.startswith(pat)`. -/
def pyStartsWith (s pat : String) : Bool := pat.data.isPrefixOf s.data

/-- Auxiliary, fuelled form of Python `haystack.count(needle)`:
non-overlapping occurrences, scanning left to right and skipping the length
of the needle after each match.  With fuel `haystack.length + 1` this agrees
with Python on every input, including the empty needle
(`s.count('') == len(s) + 1`). -/
def pyCountAux (pat : List Char) : Nat → List Char → Nat
  | 0, _ => 0
  | _ + 1, [] => if pat.isPrefixOf [] then 1 else 0
  | fuel + 1, c :: rest =>
    if pat.isPrefixOf (c :: rest) then
      1 + pyCountAux pat fuel ((c :: rest).drop pat.length)
    else
      pyCountAux pat fuel rest

/-- Python `haystack.count(needle)`. -/
def pyCount (haystack pat : String) : Nat :=
  pyCountAux pat.data (haystack.data.length + 1) haystack.data

/-- Python `s.split()` (no separator): split on runs of whitespace,
discarding empty pieces. -/
def pySplitWsAux (cur : List Char) : List Char → List (List Char)
  | [] => if cur = [] then [] else [cur.reverse]
  | c :: rest =>
    if pyIsSpace c then
      if cur = [] then pySplitWsAux [] rest
      else cur.reverse :: pySplitWsAux [] rest
    else
      pySplitWsAux (c :: cur) rest

/-- Python `s.split()` for strings. -/
def pySplitWs (s : String) : List String := (pySplitWsAux [] s.data).map (⟨·⟩)

/-- Python `s.split(sep)` for a single-character separator, keeping empty
pieces (used for `content.split('\n')`). -/
def splitOnCharL (sep : Char) : List Char → List (List Char)
  | [] => [[]]
  | c :: rest =>
    match splitOnCharL sep rest with
    | [] => [[]]
    | g :: gs => if c = sep then [] :: g :: gs else (c :: g) :: gs

/-- Python `s.split('\n')`. -/
def splitLines (s : String) : List String := (splitOnCharL '\n' s.data).map (⟨·⟩)

/-- One left-to-right pass of Python `s.replace(pat, rep)` (replaces all
non-overlapping occurrences), fuelled by the haystack length. -/
def pyReplaceAux (pat rep : List Char) : Nat → List Char → List Char
  | 0, l => l
  | _ + 1, [] => []
  | fuel + 1, c :: rest =>
    if pat ≠ [] && pat.isPrefixOf (c :: rest) then
      rep ++ pyReplaceAux pat rep fuel ((c :: rest).drop pat.length)
    else
      c :: pyReplaceAux pat rep fuel rest

/-- Python `s.replace(pat, rep)` for a non-empty pattern. -/
def pyReplace (s pat rep : String) : String :=
  ⟨pyReplaceAux pat.data rep.data s.data.length s.data⟩

/-- `os.path.basename(p)`: the part after the last `/`. -/
def basename (s : String) : String :=
  ⟨(s.data.reverse.takeWhile (· ≠ '/')).reverse⟩

/-- Python `list(dict.fromkeys(l))`: deduplicate keeping first occurrences
in order. -/
def dedupKeepFirstAux (seen : List String) : List String → List String
  | [] => []
  | x :: rest =>
    if x ∈ seen then dedupKeepFirstAux seen rest
    else x :: dedupKeepFirstAux (x :: seen) rest

/-- Deduplication preserving first-occurrence order. -/
def dedupKeepFirst (l : List String) : List String := dedupKeepFirstAux [] l

/-! ## ContentScorer: `_semantic_match_score` (WebExtractor.py lines 159-194) -/

/-- `_semantic_match_score(content, query)` translated line by line.
All summands are non-negative in the source (Python ints that are sums of
non-negative terms), so the score lives in `Nat`.  The coverage bonus
`int(match_ratio * 30)` is computed by the source in floating point as
`int(matched_words / len(query_words) * 30)`; it is embedded as the exact
`30 * matched / total` floor division (for the word counts arising here the
two agree, and in particular they agree when every query word matches, where
the ratio `1.0` is exact). -/
def semantic_match_score (content query : String) : Nat :=
  if content = "" || query = "" then
    -- `return 20 if content and len(content) > 200 else 0`
    if content ≠ "" && 200 < content.length then 20 else 0
  else
    let contentLower := pyLower content
    let queryLower := pyLower query
    -- `[w.strip() for w in query_lower.split() if len(w.strip()) > 2]`
    let queryWords := ((pySplitWs queryLower).map pyStrip).filter (2 < ·.length)
    if queryWords = [] then
      if 200 < content.length then 20 else 0
    else
      let counts := queryWords.map (fun w => pyCount contentLower w)
      -- `score += min(count * 8, 25)` for each word with `count > 0`
      let keywordScore := (counts.map (fun c => if 0 < c then min (c * 8) 25 else 0)).sum
      let matchedWords := (counts.filter (0 < ·)).length
      -- `score += int(match_ratio * 30)`
      let withCoverage := keywordScore + 30 * matchedWords / queryWords.length
      -- richness bonus
      let withRichness :=
        withCoverage +
          (if 500 ≤ content.length then 10 else if 200 ≤ content.length then 5 else 0)
      min withRichness 100

/-! ## ResultFormatter: `_clean_content` (lines 289-336) and `_format_result`
(lines 266-287) -/

/-- State threaded through the line-filtering loop of `_clean_content`:
the set of dedup keys seen so far, the `last_was_empty` flag, and the
accumulated kept lines. -/
structure CleanAcc where
  seen : List String
  lastEmpty : Bool
  acc : List String

/-- One iteration of the `for line in lines` loop of `_clean_content`. -/
def cleanStep (st : CleanAcc) (line : String) : CleanAcc :=
  let ls := pyStrip line
  if pyStartsWith ls "📌 Source:" then st
  else if pyStartsWith ls "===" then st
  else if ls = "" then
    if st.lastEmpty then st
    else { st with lastEmpty := true, acc := st.acc ++ [line] }
  else if 50 < ls.length then
    let key := pyLower (pyTake ls 100)
    if key ∈ st.seen then { st with lastEmpty := false }
    else { seen := key :: st.seen, lastEmpty := false, acc := st.acc ++ [line] }
  else { st with lastEmpty := false, acc := st.acc ++ [line] }

/-- The `while '\n\n\n' in result: result = result.replace('\n\n\n', '\n\n')`
loop, fuelled (each replacement pass strictly shrinks the string, so
`length` passes suffice). -/
def collapseNewlines : Nat → String → String
  | 0, s => s
  | fuel + 1, s =>
    if strContainsSub s "\n\n\n" then collapseNewlines fuel (pyReplace s "\n\n\n" "\n\n")
    else s

/-- `_clean_content(content)` translated line by line. -/
def clean_content (content : String) : String :=
  if content = "" then ""
  else
    let lines := splitLines content
    let final := lines.foldl cleanStep { seen := [], lastEmpty := false, acc := [] }
    let result := String.intercalate "\n" final.acc
    pyStrip (collapseNewlines result.length result)

/-- `_format_result(content, url, score)` translated line by line.  The
mutable `self.pdf_links` list read at line 282 is passed explicitly.  Note
that the `score` parameter is accepted but never read by the source body. -/
def format_result (pdf_links : List String) (content : String) (url : String)
    (score : Nat) : String :=
  if content = "" then "❌ Aucun contenu trouvé\n📌 URL: " ++ url
  else
    let content := clean_content content
    let content :=
      if 6000 < content.length then pyTake content 6000 ++ "\n\n[...contenu tronqué]"
      else content
    let result := content ++ "\n\n📌 Source: " ++ url
    if pdf_links ≠ [] then
      let uniquePdfs := (dedupKeepFirst pdf_links).take 3
      if uniquePdfs ≠ [] then
        result ++ "\n📎 PDFs: " ++ String.intercalate ", " (uniquePdfs.map basename)
      else result
    else result

/-! ## LinkScorer: the per-candidate scoring of `_get_scored_internal_links`
(lines 237-256).

The surrounding HTML parsing, URL resolution and candidate filtering
(lines 215-235) operate on `BeautifulSoup`/`urllib` structures; the scoring
itself is a pure function of the candidate's anchor text (`link_text`,
already lowercased and stripped by line 238), the final URL path segment
(`url_path`, line 239) and the query words (line 210), and is embedded
here. -/

/-- The fixed high-value term list of line 250. -/
def important_words : List String :=
  ["programme", "stage", "internship", "procedure", "list", "all", "nos-"]

/-- The score contribution of one query word for one candidate
(lines 243-247): +30 if the word occurs in `combined` (the concatenation
`f"{link_text} {url_path}"` of line 240), +20 more if it occurs in
`url_path` itself. -/
def link_keyword_contrib (combined url_path : String) (w : String) : Nat :=
  (if strContainsSub combined w then 30 else 0) +
    (if strContainsSub url_path w then 20 else 0)

/-- The full candidate score of lines 242-253: per-query-word contributions
plus +10 per high-value term present in the combined text. -/
def link_score (query_words : List String) (link_text url_path : String) : Nat :=
  let combined := link_text ++ " " ++ url_path
  (query_words.map (link_keyword_contrib combined url_path)).sum +
    (important_words.map (fun iw => if strContainsSub combined iw then 10 else 0)).sum

/-! ## CrawlController: `extract_site_content` (lines 51-157),
`_extract_single_page` (lines 341-423) and the fetch/sort skeleton of
`_get_scored_internal_links` (lines 196-264).

The network is modelled by a `World`: a function from URLs to the data the
server would return.  For an HTML page the interesting outputs of the
response are (a) the text `_extract_text` produces from its parsed DOM,
(b) the PDF links the page-scanning loop discovers, and (c) the internal
link candidates (clean URL, score) that the parsing/filtering/scoring part
of `_get_scored_internal_links` produces from the raw HTML — (c) is the
post-filter candidate list in DOM discovery order, with the final
stable descending sort of line 259 embedded explicitly below.  A fetch
failure of any kind (timeout, non-2xx after `raise_for_status`, connection
error) is `none`.  The claims verified against this model are about the
`extract_pdf_content=False` mode, in which `_extract_single_page` performs
exactly one `session.get` for a non-visited URL and records discovered PDF
links without downloading them. -/

/-- What the network returns for one URL (see the module comment above). -/
structure PageData where
  content : String
  pdfs : List String
  cands : List (String × Nat)
deriving DecidableEq, Repr

/-- The network, as seen through `requests.Session.get`. -/
def World : Type := String → Option PageData

/-- Per-call mutable state of the extractor: `self.visited_urls`,
`self.pdf_links`, plus the ghost trace of URLs passed to `session.get`,
in call order. -/
structure CrawlState where
  visited : List String
  pdfLinks : List String
  trace : List String
deriving DecidableEq, Repr

/-- One `session.get(url)`: the URL is appended to the fetch trace whether
or not the request succeeds. -/
def netGet (w : World) (s : CrawlState) (url : String) :
    Option PageData × CrawlState :=
  (w url, { s with trace := s.trace ++ [url] })

/-- Lines 390-392: each discovered PDF link not already in `self.pdf_links`
is appended to it. -/
def addPdfLinks (cur new : List String) : List String :=
  new.foldl (fun acc l => if l ∈ acc then acc else acc ++ [l]) cur

/-- `_extract_single_page(url)` with `extract_pdf_content=False`
(lines 341-353 and the HTML tail): consult the visited set, mark the URL
visited, perform the single `session.get`, return `""` on any fetch
failure, otherwise record the page's PDF links and return its extracted
text. -/
def extract_single_page (w : World) (s : CrawlState) (url : String) :
    String × CrawlState :=
  if url ∈ s.visited then ("", s)
  else
    let s := { s with visited := s.visited ++ [url] }
    match netGet w s url with
    | (none, s) => ("", s)
    | (some p, s) => (p.content, { s with pdfLinks := addPdfLinks s.pdfLinks p.pdfs })

/-- Stable descending insertion for `(url, score)` pairs: a new element is
placed before the first existing element with a score `≤` its own, so
elements with equal scores keep their original relative order — the
semantics of Python's stable `list.sort(key=..., reverse=True)`. -/
def insertDesc (x : String × Nat) : List (String × Nat) → List (String × Nat)
  | [] => [x]
  | y :: ys => if y.2 ≤ x.2 then x :: y :: ys else y :: insertDesc x ys

/-- Python `scored_links.sort(key=lambda x: x[1], reverse=True)`. -/
def sortByScoreDesc (l : List (String × Nat)) : List (String × Nat) :=
  l.foldr insertDesc []

/-- `_get_scored_internal_links(base_url, query)`: fetch the base page
(note: a second, unconditional `session.get` of `base_url`, with no
consultation of `self.visited_urls`), return `[]` on failure (line 205-207),
otherwise score the candidates and sort them by descending score.  The
candidate extraction/filtering/scoring of lines 215-256 is the world's
`cands` field (see the module comment); the sort of line 259 is explicit. -/
def get_scored_internal_links (w : World) (s : CrawlState) (baseUrl : String) :
    List (String × Nat) × CrawlState :=
  match netGet w s baseUrl with
  | (none, s) => ([], s)
  | (some p, s) => (sortByScoreDesc p.cands, s)

/-- The `for page_url, title_score in internal_links[:max_pages]` loop of
lines 118-151, together with the final return of line 157.  Arguments after
the link list: current state, running best content / score / URL
(`best_content`, `best_score`, `best_url`), and `pages_explored`. -/
def crawlLoop (w : World) (query : String) :
    List (String × Nat) → CrawlState → String → Nat → String → Nat →
      String × CrawlState
  | [], s, bc, bs, bu, _ => (format_result s.pdfLinks bc bu bs, s)
  | (pageUrl, titleScore) :: rest, s, bc, bs, bu, pe =>
    if pageUrl ∈ s.visited then crawlLoop w query rest s bc bs bu pe
    else
      let pe := pe + 1
      match extract_single_page w s pageUrl with
      | (pageContent, s) =>
        if pageContent = "" then crawlLoop w query rest s bc bs bu pe
        else
          let contentScore := semantic_match_score pageContent query
          let totalScore := (titleScore + contentScore) / 2
          -- lines 138-141: update the running best
          let best := if bs < totalScore then (pageContent, totalScore, pageUrl)
                      else (bc, bs, bu)
          -- line 144: early stop on a good match
          if 70 ≤ totalScore then
            (format_result s.pdfLinks best.1 best.2.2 best.2.1, s)
          -- line 149: acceptable score after enough pages → break to line 157
          else if 50 ≤ best.2.1 ∧ 4 ≤ pe then
            (format_result s.pdfLinks best.1 best.2.2 best.2.1, s)
          else crawlLoop w query rest s best.1 best.2.1 best.2.2 pe

/-- `extract_site_content(url, max_pages, deep_crawl, extract_pdf_content=False,
priority_keywords)` (lines 51-157), returning the formatted result together
with the final extractor state (including the ghost fetch trace). -/
def extract_site_content (w : World) (url : String) (maxPages : Nat)
    (deepCrawl : Bool) (priorityKeywords : List String) : String × CrawlState :=
  -- lines 75-76: reset per-session state
  let s : CrawlState := { visited := [], pdfLinks := [], trace := [] }
  -- line 79: search_query = " ".join(priority_keywords)
  let searchQuery := String.intercalate " " priorityKeywords
  match extract_single_page w s url with
  | (mainContent, s) =>
    -- lines 88-95: fast path
    if mainContent ≠ "" ∧ 60 ≤ semantic_match_score mainContent searchQuery then
      (format_result s.pdfLinks mainContent url
        (semantic_match_score mainContent searchQuery), s)
    else if deepCrawl = false then
      -- lines 100-101
      (format_result s.pdfLinks mainContent url 0, s)
    else
      match get_scored_internal_links w s url with
      | (links, s) =>
        if links = [] then
          -- lines 106-108
          (format_result s.pdfLinks mainContent url 0, s)
        else
          -- lines 112-115 (best_score recomputes the main-page score)
          let bs := if mainContent ≠ "" then semantic_match_score mainContent searchQuery
                    else 0
          crawlLoop w searchQuery (links.take maxPages) s mainContent bs url 1

/-! ## PdfExtractor: `_extract_pdf_from_url_advanced` (lines 548-619) and the
per-page formatting tail of `_extract_pdf_strategy1` (lines 663-668 and
720-734).

The model starts at the point where the PDF bytes have been downloaded and
written to the scoped temporary file (lines 578-581); the earlier
download-failure and not-a-PDF exits happen before the file exists.  Each
extraction strategy is a parameter carrying what the pdfminer-based parsing
of the temporary file would produce: strategy 1 and strategy 3 may raise
(pdfminer parse errors propagate out of them, modelled as `none`), while
strategy 2 catches its own exceptions and returns `[]` (lines 786-788).
The steps taken on the temporary file are recorded in order as a trace. -/

/-- Observable steps of one `_extract_pdf_from_url_advanced` call. -/
inductive PdfStep where
  | writeTmp
  | runS1
  | runS2
  | runS3
  | removeTmp
deriving DecidableEq, Repr

/-- `sum(len(p) for p in pages_content)` (lines 588 and 594). -/
def totalChars (pages : List String) : Nat := (pages.map String.length).sum

/-- The `'='*60` separator used throughout the PDF formatting. -/
def sep60 : String := ⟨List.replicate 60 '='⟩

/-- The per-page output of `_extract_pdf_strategy1` (lines 720-734) given the
reconstructed text of one page: pages whose stripped text exceeds 10
characters are wrapped in a header/separator block, the rest are emitted as
an "empty or image" marker block (a page with no positioned elements at all,
lines 663-668, produces the identical marker via an empty `page_text`). -/
def strategy1_page (pageNum : Nat) (pageText : String) : String :=
  if 10 < (pyStrip pageText).length then
    sep60 ++ "\n📄 PAGE " ++ toString pageNum ++ "\n" ++ sep60 ++ "\n" ++ pageText ++ "\n"
  else
    sep60 ++ "\n📄 PAGE " ++ toString pageNum ++ "\n" ++ sep60 ++ "\n⚠️ [Page vide ou image]\n"

/-- The page list `_extract_pdf_strategy1` returns, given the per-page
reconstructed texts (the geometric row grouping that produces each page's
text from pdfminer bounding boxes is the abstracted input). -/
def extract_pdf_strategy1_format (pageTexts : List String) : List String :=
  pageTexts.enum.map fun it => strategy1_page (it.1 + 1) it.2

/-- Line 602: the "detected but not extractable" tagged message. -/
def pdf_unextractable_msg (url : String) : String :=
  "❌ [PDF détecté mais contenu non extractible (peut-être scanné/image) : " ++
    basename url ++ "]\n📎 Lien direct: " ++ url

/-- Line 619: the message returned by the exception handler. -/
def pdf_exception_msg (url : String) : String :=
  "❌ [PDF détecté mais extraction impossible : " ++ basename url ++
    "]\n📎 Lien direct: " ++ url

/-- Lines 604-613: the successful document wrapper. -/
def pdf_success_msg (url : String) (pages : List String) : String :=
  "📖 DOCUMENT PDF : " ++ basename url ++
    "\n📊 Nombre de pages : " ++ toString pages.length ++
    "\n📎 Lien direct: " ++ url ++ "\n\n" ++
    String.intercalate "\n\n" pages ++
    "\n\n" ++ sep60 ++ "\n✅ FIN DU DOCUMENT (" ++ toString pages.length ++
    " pages)\n" ++ sep60 ++ "\n"

/-- Lines 601-615: after the strategies have run, report the PDF as
unextractable when every page's trimmed text is under 20 characters
(or there are no pages), otherwise wrap the pages. -/
def pdf_finish (url : String) (pages : List String) : String :=
  if pages = [] ∨ pages.all (fun p => (pyStrip p).length < 20) then
    pdf_unextractable_msg url
  else pdf_success_msg url pages

/-- The strategy-selection and cleanup control flow of
`_extract_pdf_from_url_advanced` (lines 583-619), starting after the
temporary file has been written.  `strat1`/`strat3` are `none` when the
corresponding strategy raises; `os.remove(tmp_path)` (line 599) runs only
when no strategy raised, because a raise jumps to the handler at line 617
which returns the error message directly. -/
def extract_pdf_from_url_advanced (url : String) (strat1 : Option (List String))
    (strat2 : List String) (strat3 : Option (List String)) :
    String × List PdfStep :=
  match strat1 with
  | none => (pdf_exception_msg url, [PdfStep.writeTmp, PdfStep.runS1])
  | some p1 =>
    -- lines 588-591: fall back to strategy 2 below the 200-character threshold
    let afterS2 :=
      if totalChars p1 < 200 then
        (strat2, [PdfStep.writeTmp, PdfStep.runS1, PdfStep.runS2])
      else (p1, [PdfStep.writeTmp, PdfStep.runS1])
    -- lines 594-597: fall back to strategy 3 below the same threshold
    if totalChars afterS2.1 < 200 then
      match strat3 with
      | none => (pdf_exception_msg url, afterS2.2 ++ [PdfStep.runS3])
      | some p3 =>
        (pdf_finish url p3, afterS2.2 ++ [PdfStep.runS3, PdfStep.removeTmp])
    else (pdf_finish url afterS2.1, afterS2.2 ++ [PdfStep.removeTmp])

/-! ## Invariant and concrete data used by the theorems below -/

/-- The fetch-trace invariant maintained by one `extract_site_content` call:
every URL handed to `session.get` is in the visited set, and no URL has been
fetched more than once — except the start URL, which may appear twice
(once from `_extract_single_page`, once from the unconditional link-discovery
fetch of `_get_scored_internal_links`). -/
def TraceInv (url : String) (s : CrawlState) : Prop :=
  (∀ u ∈ s.trace, u ∈ s.visited) ∧
    ∀ u, s.trace.count u ≤ if u = url then 2 else 1

/-- A 600-character start-page content with five case-insensitive
occurrences of "mitacs" and two of "stage" (the concrete scenario of the
specification's §8). -/
def content9 : String :=
  "Mitacs Mitacs Mitacs Mitacs Mitacs stage stage " ++
    String.mk (List.replicate 553 'x')

/-- A world whose start page carries `content9` and also exposes an internal
link candidate (which the fast path must never fetch). -/
def w9 : World := fun u =>
  if u = "https://site.example/" then
    some { content := content9, pdfs := [],
           cands := [("https://site.example/programmes", 90)] }
  else none

/-- A 200-character content scoring exactly 60 against the query "abc"
(keyword 25 + coverage 30 + richness 5). -/
def contentC3 : String := ⟨(List.replicate 50 ['a', 'b', 'c', ' ']).flatten⟩

/-- A world for the fast-path witness. -/
def wC3 : World := fun u =>
  if u = "https://fast.example/" then
    some { content := contentC3, pdfs := [],
           cands := [("https://fast.example/a", 99)] }
  else none

/-- A world whose start page matches the query poorly, forcing the deep
crawl (and hence the second fetch of the start URL by
`_get_scored_internal_links`). -/
def wC2 : World := fun u =>
  if u = "https://ex.org/" then
    some { content := "x", pdfs := [], cands := [("https://ex.org/a", 30)] }
  else none

/-- A world for the early-termination witness: one internal page carrying
rich content. -/
def w4 : World := fun u =>
  if u = "https://s.example/deep" then
    some { content := content9, pdfs := [], cands := [] }
  else none

/-- A world in which every fetch fails (start page unreachable). -/
def wDown : World := fun _ => none

/-- The page texts of the three-page strategy-1 scenario of the
specification's §8: 50, 80 and 5 characters of extracted text. -/
def c5PageTexts : List String :=
  [⟨List.replicate 50 'a'⟩, ⟨List.replicate 80 'b'⟩, ⟨List.replicate 5 'c'⟩]

/-! ## General lemmas -/

/-- The underlying character data of a string concatenation. -/
theorem strData_append (a b : String) : (a ++ b).data = a.data ++ b.data := by
  cases a; cases b; rfl

/-- Appending to the haystack on the left preserves substring containment. -/
theorem listContainsSub_append_left (a : List Char) {b pat : List Char}
    (h : listContainsSub b pat = true) : listContainsSub (a ++ b) pat = true := by
  induction a with
  | nil => simpa using h
  | cons c rest ih =>
    cases pat with
    | nil => simp [listContainsSub]
    | cons p ps =>
      rw [List.cons_append, listContainsSub]
      simp only [Bool.or_eq_true]
      exact Or.inr ih

/-- A string contains itself as a substring. -/
theorem listContainsSub_self (l : List Char) : listContainsSub l l = true := by
  cases l with
  | nil => simp [listContainsSub]
  | cons c rest =>
    rw [listContainsSub]
    simp [List.isPrefixOf_iff_prefix]

/-! ## Claim theorems -/

/-- C1: the semantic match score is an integer in `[0, 100]` for every
content string and every query string, including the empty-content and
empty-query special cases.  (The score is a `Nat`, so `0 ≤` is by
construction; the interesting half is the upper bound.) -/
theorem semantic_match_score_le_100 (content query : String) :
    0 ≤ semantic_match_score content query ∧ semantic_match_score content query ≤ 100 := by
  refine ⟨Nat.zero_le _, ?_⟩
  simp only [semantic_match_score]
  repeat' split
  all_goals first
    | exact Nat.min_le_right _ 100
    | norm_num

/-- C10: the string returned by `_format_result` does not depend on the
`score` argument — the score is accepted but never surfaced in the result,
for every content string, URL and discovered-PDF-link state.  The proof is
definitional: `score` does not occur in the body. -/
theorem format_result_score_independent (pdf_links : List String)
    (content url : String) (s1 s2 : Nat) :
    format_result pdf_links content url s1 = format_result pdf_links content url s2 := rfl

/-- C8: for a link candidate whose URL path (final segment) contains a
query keyword while its anchor text does not, the candidate's score
includes a contribution of exactly 50 for that keyword — 30 from the
combined anchor-text-plus-URL match plus 20 from the URL-path match — and
the full `link_score` for that single keyword is 50 plus only the
high-value-term bonuses. -/
theorem link_keyword_contrib_in_path (link_text url_path w : String)
    (hpath : strContainsSub url_path w = true)
    (hanchor : strContainsSub link_text w = false) :
    link_keyword_contrib (link_text ++ " " ++ url_path) url_path w = 30 + 20 ∧
      link_score [w] link_text url_path =
        30 + 20 +
          (important_words.map
            (fun iw =>
              if strContainsSub (link_text ++ " " ++ url_path) iw then 10 else 0)).sum := by
  have hcomb : strContainsSub (link_text ++ " " ++ url_path) w = true := by
    unfold strContainsSub at hpath ⊢
    rw [strData_append, strData_append]
    rw [List.append_assoc]
    exact listContainsSub_append_left _
      (listContainsSub_append_left _ hpath)
  constructor
  · unfold link_keyword_contrib
    rw [hcomb, hpath]
    simp
  · unfold link_score
    simp only [List.map_cons, List.map_nil, List.sum_cons, List.sum_nil]
    unfold link_keyword_contrib
    rw [hcomb, hpath]
    simp [Nat.add_assoc]

/-- Witness for C8 at a concrete candidate: anchor text `"cliquez ici"`,
URL path `"nos-stages"`, keyword `"stage"` (the keyword occurs in the path
but not in the anchor; the high-value bonuses here are 10 for `"stage"`
plus 10 for `"nos-"`). -/
theorem link_keyword_contrib_in_path_witness :
    strContainsSub "nos-stages" "stage" = true ∧
      strContainsSub "cliquez ici" "stage" = false ∧
      link_keyword_contrib ("cliquez ici" ++ " " ++ "nos-stages") "nos-stages" "stage" = 30 + 20 ∧
      link_score ["stage"] "cliquez ici" "nos-stages" = 70 := by
  refine ⟨by decide, by decide, ?_, ?_⟩
  · exact (link_keyword_contrib_in_path "cliquez ici" "nos-stages" "stage"
      (by decide) (by decide)).1
  · have h := (link_keyword_contrib_in_path "cliquez ici" "nos-stages" "stage"
      (by decide) (by decide)).2
    rw [h]
    decide

set_option maxRecDepth 100000 in
/-- C5 counterexample: in the three-page scenario where strategy 1 extracts
50, 80 and 5 characters of page text (total 135 < 200), strategy 2 is NOT
invoked: the 200-character threshold of line 589 is compared against
`sum(len(p) for p in pages_content)`, and the elements of `pages_content`
are the *formatted* page blocks of lines 723-733, each carrying about 132
characters of separator/header decoration, so the compared total is
183 + 213 + 156 = 552 ≥ 200. -/
theorem pdf_strategy2_skipped_on_c5_scenario :
    c5PageTexts.map String.length = [50, 80, 5] ∧
      totalChars c5PageTexts < 200 ∧
      PdfStep.runS2 ∉
        (extract_pdf_from_url_advanced "https://ex.org/doc.pdf"
          (some (extract_pdf_strategy1_format c5PageTexts)) ["fallback"] (some [])).2 := by
  refine ⟨by decide, by decide, ?_⟩
  decide

/-- C5 amended: whenever the total character count of the page blocks
*returned by* strategy 1 (header/separator decoration included) is below
200, strategy 2 is invoked on the same temporary file before the file is
deleted: the trace begins `writeTmp, runS1, runS2`, and the deletion step is
not among those first three steps. -/
theorem pdf_strategy2_on_small_strategy1 (url : String) (p1 strat2 : List String)
    (strat3 : Option (List String)) (h : totalChars p1 < 200) :
    ((extract_pdf_from_url_advanced url (some p1) strat2 strat3).2).take 3 =
        [PdfStep.writeTmp, PdfStep.runS1, PdfStep.runS2] ∧
      PdfStep.removeTmp ∉
        ((extract_pdf_from_url_advanced url (some p1) strat2 strat3).2).take 3 := by
  unfold extract_pdf_from_url_advanced
  simp only [if_pos h]
  constructor
  · split
    · cases strat3 <;> simp
    · simp
  · split
    · cases strat3 <;> simp
    · simp

/-- Witness for the amended C5: a strategy-1 output with no pages at all
(total 0 < 200) triggers strategy 2 before the temporary file is deleted. -/
theorem pdf_strategy2_on_small_strategy1_witness :
    totalChars [] < 200 ∧
      ((extract_pdf_from_url_advanced "https://ex.org/doc.pdf" (some []) ["x"]
            (some [])).2).take 3 =
          [PdfStep.writeTmp, PdfStep.runS1, PdfStep.runS2] ∧
        PdfStep.removeTmp ∉
          ((extract_pdf_from_url_advanced "https://ex.org/doc.pdf" (some []) ["x"]
              (some [])).2).take 3 := by
  refine ⟨by decide, ?_, ?_⟩
  · exact (pdf_strategy2_on_small_strategy1 "https://ex.org/doc.pdf" [] ["x"]
      (some []) (by decide)).1
  · exact (pdf_strategy2_on_small_strategy1 "https://ex.org/doc.pdf" [] ["x"]
      (some []) (by decide)).2

/-- C6: evaluating the extraction pipeline at the failing input — a PDF that
downloads successfully but whose parsing raises inside strategy 1 (e.g. a
URL ending in `.pdf` serving corrupt bytes) — shows the call returning the
exception message with the temporary file written but never removed:
`os.remove(tmp_path)` (line 599) sits inside the `try` block after the
strategy calls, and the handler at line 617 returns without deleting, so
the claimed "deleted on every exit path" fails on the exception path. -/
theorem pdf_tmp_not_removed_on_exception :
    (extract_pdf_from_url_advanced "https://ex.org/doc.pdf" none ["x"] (some [])).1 =
        pdf_exception_msg "https://ex.org/doc.pdf" ∧
      (extract_pdf_from_url_advanced "https://ex.org/doc.pdf" none ["x"] (some [])).2 =
        [PdfStep.writeTmp, PdfStep.runS1] ∧
      PdfStep.removeTmp ∉
        (extract_pdf_from_url_advanced "https://ex.org/doc.pdf" none ["x"] (some [])).2 := by
  refine ⟨rfl, rfl, by decide⟩

set_option maxRecDepth 400000 in
/-- C9: for the query keywords `["stage", "mitacs"]` and the 600-character
start page `content9` ("mitacs" 5 times, "stage" 2 times, case-insensitive),
the content score is exactly 81 = 41 (keywords) + 30 (coverage) + 10
(richness); 81 ≥ 60, so `extract_site_content` takes the fast path: it
returns the formatted start-page result and its fetch trace contains only
the start URL — the internal link candidate of `w9` is never computed or
fetched. -/
theorem content9_scores_81_fast_path :
    semantic_match_score content9 "stage mitacs" = 81 ∧
      60 ≤ semantic_match_score content9 "stage mitacs" ∧
      extract_site_content w9 "https://site.example/" 10 true ["stage", "mitacs"] =
        (format_result [] content9 "https://site.example/" 81,
         { visited := ["https://site.example/"], pdfLinks := [],
           trace := ["https://site.example/"] }) := by
  refine ⟨by decide, by decide, ?_⟩
  decide

/-- C7: when the start page is unreachable (every fetch of it fails — the
model's `w url = none` covers timeout, non-2xx and connection errors alike),
`extract_site_content` returns normally (the embedding is a total function:
`_extract_single_page` catches the fetch exception at lines 348-353) with
the formatted "no content found" message, which contains the URL. -/
theorem extract_site_content_unreachable (w : World) (url : String) (mp : Nat)
    (dc : Bool) (kw : List String) (h : w url = none) :
    (extract_site_content w url mp dc kw).1 =
        "❌ Aucun contenu trouvé\n📌 URL: " ++ url ∧
      strContainsSub (extract_site_content w url mp dc kw).1 url = true := by
  have hmsg : (extract_site_content w url mp dc kw).1 =
      "❌ Aucun contenu trouvé\n📌 URL: " ++ url := by
    unfold extract_site_content extract_single_page get_scored_internal_links netGet
    cases dc <;> simp [h, format_result]
  refine ⟨hmsg, ?_⟩
  rw [hmsg]
  unfold strContainsSub
  rw [strData_append]
  exact listContainsSub_append_left _ (listContainsSub_self _)

/-- Witness for C7: a world in which every fetch fails. -/
theorem extract_site_content_unreachable_witness :
    (extract_site_content wDown "https://down.example/" 10 true ["gcr"]).1 =
        "❌ Aucun contenu trouvé\n📌 URL: " ++ "https://down.example/" ∧
      strContainsSub (extract_site_content wDown "https://down.example/" 10 true ["gcr"]).1
          "https://down.example/" = true :=
  extract_site_content_unreachable wDown "https://down.example/" 10 true ["gcr"] rfl

/-- C3: whenever the start page yields non-empty content scoring `≥ 60`
against the query, `extract_site_content` returns the formatted start-page
result immediately: the final state shows exactly one fetch (the start URL)
in the trace, so the link-scoring step is never invoked and no internal
link is computed or fetched. -/
theorem extract_site_content_fast_path (w : World) (url : String) (mp : Nat)
    (dc : Bool) (kw : List String) (p : PageData)
    (hw : w url = some p) (hc : p.content ≠ "")
    (hs : 60 ≤ semantic_match_score p.content (String.intercalate " " kw)) :
    extract_site_content w url mp dc kw =
      (format_result (addPdfLinks [] p.pdfs) p.content url
         (semantic_match_score p.content (String.intercalate " " kw)),
       { visited := [url], pdfLinks := addPdfLinks [] p.pdfs, trace := [url] }) := by
  have hE : extract_single_page w ⟨[], [], []⟩ url =
      (p.content, ⟨[url], addPdfLinks [] p.pdfs, [url]⟩) := by
    unfold extract_single_page netGet
    simp [hw]
  unfold extract_site_content
  simp only [hE]
  rw [if_pos ⟨hc, hs⟩]

set_option maxRecDepth 400000 in
/-- Witness for C3: a 200-character page scoring exactly 60 against the
query `["abc"]` triggers the fast path. -/
theorem extract_site_content_fast_path_witness :
    extract_site_content wC3 "https://fast.example/" 10 true ["abc"] =
      (format_result (addPdfLinks [] []) contentC3 "https://fast.example/"
         (semantic_match_score contentC3 (String.intercalate " " ["abc"])),
       { visited := ["https://fast.example/"], pdfLinks := addPdfLinks [] [],
         trace := ["https://fast.example/"] }) :=
  extract_site_content_fast_path wC3 "https://fast.example/" 10 true ["abc"]
    { content := contentC3, pdfs := [], cands := [("https://fast.example/a", 99)] }
    rfl (by decide) (by decide)

/-- C4: in the exploration loop, when the running best score is still below
70 (true at the first sufficiency, since the start-page best is < 60 after
the fast path is skipped and every earlier explored candidate combined to
< 70) and the current candidate's combined score
`(titleScore + contentScore) // 2` reaches 70, the loop stops immediately —
the resulting state shows no fetch beyond the current candidate — and the
returned result is the current page's content and URL with its combined
score, which at that moment equals the running best (the `>` update of
lines 138-141 just fired). -/
theorem crawlLoop_first_good_match (w : World) (query : String) (s : CrawlState)
    (pageUrl : String) (titleScore : Nat) (rest : List (String × Nat))
    (bc : String) (bs : Nat) (bu : String) (pe : Nat) (p : PageData)
    (hbest : bs < 70) (hnv : pageUrl ∉ s.visited) (hw : w pageUrl = some p)
    (hc : p.content ≠ "")
    (h70 : 70 ≤ (titleScore + semantic_match_score p.content query) / 2) :
    crawlLoop w query ((pageUrl, titleScore) :: rest) s bc bs bu pe =
      (format_result (addPdfLinks s.pdfLinks p.pdfs) p.content pageUrl
         ((titleScore + semantic_match_score p.content query) / 2),
       { visited := s.visited ++ [pageUrl],
         pdfLinks := addPdfLinks s.pdfLinks p.pdfs,
         trace := s.trace ++ [pageUrl] }) := by
  have hE : extract_single_page w s pageUrl =
      (p.content, { visited := s.visited ++ [pageUrl],
                    pdfLinks := addPdfLinks s.pdfLinks p.pdfs,
                    trace := s.trace ++ [pageUrl] }) := by
    unfold extract_single_page netGet
    simp [hnv, hw]
  have hlt : bs < (titleScore + semantic_match_score p.content query) / 2 :=
    Nat.lt_of_lt_of_le hbest h70
  unfold crawlLoop
  rw [if_neg hnv]
  simp only [hE]
  rw [if_neg hc]
  simp only [if_pos hlt, if_pos h70]

set_option maxRecDepth 400000 in
/-- Witness for C4: with a running best of 0, a candidate with title score
90 whose page scores 81 (combined (90+81)//2 = 85 ≥ 70) stops the loop at
once; the trace grows by exactly that one URL and the result is that
page's content and URL. -/
theorem crawlLoop_first_good_match_witness :
    crawlLoop w4 "stage mitacs" [("https://s.example/deep", 90)]
        { visited := ["https://s.example/"], pdfLinks := [],
          trace := ["https://s.example/"] }
        "m" 0 "https://s.example/" 1 =
      (format_result (addPdfLinks [] []) content9 "https://s.example/deep"
         ((90 + semantic_match_score content9 "stage mitacs") / 2),
       { visited := ["https://s.example/"] ++ ["https://s.example/deep"],
         pdfLinks := addPdfLinks [] [],
         trace := ["https://s.example/"] ++ ["https://s.example/deep"] }) :=
  crawlLoop_first_good_match w4 "stage mitacs"
    { visited := ["https://s.example/"], pdfLinks := [], trace := ["https://s.example/"] }
    "https://s.example/deep" 90 [] "m" 0 "https://s.example/" 1
    { content := content9, pdfs := [], cands := [] }
    (by decide) (by decide) rfl (by decide) (by decide)

/-- C2 counterexample: in the session crawling `wC2` from
`https://ex.org/` (start-page score 0 < 60, so the deep crawl runs), the
start URL is passed to `session.get` twice — once by
`_extract_single_page` (line 349) and once by the unconditional fetch
inside `_get_scored_internal_links` (line 202), which consults no visited
set — so "the same normalized URL is never requested twice" fails. -/
theorem start_url_fetched_twice :
    ((extract_site_content wC2 "https://ex.org/" 10 true ["zzz"]).2.trace.count
        "https://ex.org/") = 2 ∧
      ¬ ((extract_site_content wC2 "https://ex.org/" 10 true ["zzz"]).2.trace.count
            "https://ex.org/") ≤ 1 := by
  refine ⟨?_, by decide⟩
  decide

/-- Extending a trace/visited pair by a not-yet-visited URL preserves the
fetch-count bounds. -/
theorem traceInv_extend {url pu : String} {vis tr : List String}
    (h1 : ∀ u ∈ tr, u ∈ vis) (h2 : ∀ u, tr.count u ≤ if u = url then 2 else 1)
    (hnv : pu ∉ vis) :
    (∀ u ∈ tr ++ [pu], u ∈ vis ++ [pu]) ∧
      ∀ u, (tr ++ [pu]).count u ≤ if u = url then 2 else 1 := by
  constructor
  · intro u hu
    rcases List.mem_append.1 hu with hu | hu
    · exact List.mem_append.2 (Or.inl (h1 u hu))
    · exact List.mem_append.2 (Or.inr hu)
  · intro u
    rw [List.count_append]
    by_cases hup : u = pu
    · subst hup
      have h0 : tr.count u = 0 := by
        rw [List.count_eq_zero]
        intro hmem
        exact hnv (h1 u hmem)
      rw [h0]
      have h1le : List.count u [u] = 1 := by simp
      rw [h1le]
      split <;> omega
    · have h0 : List.count u [pu] = 0 := by simp [hup]
      rw [h0]
      simpa using h2 u

/-- `_extract_single_page` preserves the fetch-trace invariant: it either
leaves the state untouched (already-visited URL) or fetches a URL that was
not in the visited set, marking it visited. -/
theorem extract_single_page_inv (w : World) (s : CrawlState) (pu url : String)
    (h : TraceInv url s) : TraceInv url (extract_single_page w s pu).2 := by
  unfold extract_single_page netGet
  split
  · exact h
  · rename_i hnv
    cases hw : w pu
    · exact traceInv_extend h.1 h.2 hnv
    · exact traceInv_extend h.1 h.2 hnv

/-- The exploration loop preserves the fetch-trace invariant: every fetch
it performs goes through `_extract_single_page`, which consults the visited
set first. -/
theorem crawlLoop_inv (w : World) (query url : String)
    (links : List (String × Nat)) :
    ∀ (s : CrawlState) (bc : String) (bs : Nat) (bu : String) (pe : Nat),
      TraceInv url s → TraceInv url (crawlLoop w query links s bc bs bu pe).2 := by
  induction links with
  | nil =>
    intro s bc bs bu pe h
    simpa [crawlLoop] using h
  | cons hd rest ih =>
    intro s bc bs bu pe h
    obtain ⟨pageUrl, titleScore⟩ := hd
    unfold crawlLoop
    split
    · exact ih s bc bs bu pe h
    · have h' := extract_single_page_inv w s pageUrl url h
      rcases hE : extract_single_page w s pageUrl with ⟨pc, s'⟩
      rw [hE] at h'
      simp only [hE]
      split
      · exact ih s' bc bs bu (pe + 1) h'
      · repeat' split
        all_goals first
          | exact h'
          | exact ih s' _ _ _ (pe + 1) h'

/-- C2 amended: within one `extract_site_content` call (with PDF content
extraction disabled), every URL other than the start URL is passed to
`session.get` at most once — `_extract_single_page` consults the visited
set before its network call — while the start URL may be fetched up to
twice: once by `_extract_single_page` and once by the unconditional
link-discovery fetch inside `_get_scored_internal_links`. -/
theorem extract_site_content_fetches_bounded (w : World) (url : String)
    (mp : Nat) (dc : Bool) (kw : List String) (u : String) :
    ((extract_site_content w url mp dc kw).2.trace.count u) ≤
      if u = url then 2 else 1 := by
  suffices h : TraceInv url (extract_site_content w url mp dc kw).2 from h.2 u
  unfold extract_site_content
  rcases hE : extract_single_page w ⟨[], [], []⟩ url with ⟨mc, s1⟩
  have hs1 : s1.trace = [url] ∧ s1.visited = [url] := by
    have hfresh : (extract_single_page w ⟨[], [], []⟩ url).2.trace = [url] ∧
        (extract_single_page w ⟨[], [], []⟩ url).2.visited = [url] := by
      unfold extract_single_page netGet
      cases w url <;> simp
    rwa [hE] at hfresh
  have h1 : TraceInv url s1 := by
    constructor
    · intro v hv
      rw [hs1.1] at hv
      rw [hs1.2]
      exact hv
    · intro v
      rw [hs1.1]
      by_cases hvu : v = url <;> simp [hvu]
  simp only [hE]
  split
  · exact h1
  · split
    · exact h1
    · have h2 : TraceInv url { s1 with trace := s1.trace ++ [url] } := by
        constructor
        · intro v hv
          simp only [hs1.1] at hv
          simp only [hs1.2]
          rcases List.mem_append.1 hv with hv | hv
          · exact hv
          · exact hv
        · intro v
          simp only [hs1.1]
          by_cases hvu : v = url <;> simp [hvu]
      unfold get_scored_internal_links netGet
      cases hw : w url
      · exact h2
      · split
        · exact h2
        · exact crawlLoop_inv w _ url _ _ _ _ _ _ h2
